import Mathlib

/-!
# Verification of `compression-test` (src/index.js)

A shallow embedding of the HTTP-compression benchmark script in
`src/index.js`, together with theorems settling the frozen claims about it.

Modelling conventions:
* The payload (`testData`) is a `String`; its `length` models the JS
  `String.prototype.length` used by the source for sizes.
* Network and OS nondeterminism (fetch outcomes, port-bind failures,
  request failure, echoed `content-encoding`, raw response byte count,
  `process.hrtime` readings, `Math.random` draws) is supplied by explicit
  environment records; the embedded functions are deterministic in them.
* Numeric result fields are kept as exact rationals (`ℚ`); the source
  additionally formats them with `toFixed(2)`/`formatBytes` suffix strings
  for display, which is modelled where a claim depends on it
  (`formatBytes`) and abstracted to the exact value elsewhere.
-/

namespace CompressionTest

/-- The fixed word list of `generateCompressedTestData` (src/index.js:48-52). -/
def words : List String :=
  ["the", "be", "to", "of", "and", "a", "in", "that", "have", "I",
   "Shakespeare", "Hamlet", "Macbeth", "Romeo", "Juliet", "Othello",
   "wherefore", "thou", "thy", "thee", "hast", "doth", "forsooth"]

theorem words_length : words.length = 23 := by decide

theorem words_nonempty_each : ∀ i : Fin words.length, 1 ≤ (words.get i).length := by
  decide

/-- One iteration of the `while (result.length < size)` loop of
`generateCompressedTestData` (src/index.js:55-60): append a randomly chosen
word plus a space, and with probability 0.1 a newline.  `pick n` supplies the
value of `Math.floor(Math.random() * words.length)` at iteration `n`
(taken mod the list length, which is what the source's floor of a uniform
draw in `[0, words.length)` produces) and `nl n` the outcome of
`Math.random() < 0.1`. -/
def generateStep (pick : Nat → Nat) (nl : Nat → Bool) (n : Nat) (acc : String) : String :=
  let w := words.get ⟨pick n % words.length, Nat.mod_lt _ (by decide)⟩
  acc ++ w ++ " " ++ (if nl n then "\n" else "")

theorem generateStep_length_lt (pick : Nat → Nat) (nl : Nat → Bool) (n : Nat)
    (acc : String) : acc.length < (generateStep pick nl n acc).length := by
  unfold generateStep
  simp only [String.length_append]
  have h1 := words_nonempty_each ⟨pick n % words.length, Nat.mod_lt _ (by decide)⟩
  omega

/-- The `while` loop of `generateCompressedTestData` (src/index.js:54-61),
accumulating into `acc` until its length reaches `size`.  Terminates because
each step strictly increases `acc.length`. -/
def generateLoop (pick : Nat → Nat) (nl : Nat → Bool) (size : Nat) (n : Nat)
    (acc : String) : String :=
  if h : acc.length < size then
    generateLoop pick nl size (n + 1) (generateStep pick nl n acc)
  else acc
termination_by size - acc.length
decreasing_by
  have := generateStep_length_lt pick nl n acc
  omega

/-- `generateCompressedTestData` (src/index.js:46-62): starts from the empty
string and loops until the accumulated length reaches `size` (default
`5 * 1024 * 1024` at the call site). -/
def generateCompressedTestData (pick : Nat → Nat) (nl : Nat → Bool)
    (size : Nat) : String :=
  generateLoop pick nl size 0 ""

theorem generateLoop_length_ge (pick : Nat → Nat) (nl : Nat → Bool) (size : Nat) :
    ∀ n acc, size ≤ (generateLoop pick nl size n acc).length := by
  intro n acc
  induction n, acc using generateLoop.induct pick nl size with
  | case1 n acc h ih =>
    rw [generateLoop, dif_pos h]
    exact ih
  | case2 n acc h =>
    rw [generateLoop, dif_neg h]
    omega

theorem generateCompressedTestData_length_ge (pick : Nat → Nat) (nl : Nat → Bool)
    (size : Nat) : size ≤ (generateCompressedTestData pick nl size).length :=
  generateLoop_length_ge pick nl size 0 ""

/-- The two Project Gutenberg URLs tried by `fetchTestData`
(src/index.js:13-16). -/
def urls : List String :=
  ["https://www.gutenberg.org/files/100/100-0.txt",
   "https://www.gutenberg.org/cache/epub/100/pg100.txt"]

/-- `fetchTestData` (src/index.js:10-39): try each URL in order and return
the first successful response body; if every attempt fails (throws or times
out, modelled by `fetchResult u = none`), fall back to
`generateCompressedTestData(5 * 1024 * 1024)`.  The fallback never throws. -/
def fetchTestData (fetchResult : String → Option String)
    (pick : Nat → Nat) (nl : Nat → Bool) : String :=
  match urls.findSome? fetchResult with
  | some data => data
  | none => generateCompressedTestData pick nl (5 * 1024 * 1024)

/-- The unit suffix list of `formatBytes` (src/index.js:67). -/
def sizes : List String := ["Bytes", "KB", "MB", "GB"]

/-- JS `Number.prototype.toFixed(2)` on the exact value: round to the nearest
hundredth (half away from zero on the nonnegative values that occur here). -/
def toFixed2 (q : ℚ) : ℚ := (⌊q * 100 + 1 / 2⌋ : ℚ) / 100

/-- `formatBytes` (src/index.js:64-70).  `0` is special-cased to `"0 Bytes"`;
otherwise the unit index is `Math.floor(Math.log(bytes) / Math.log(1024))`,
i.e. the floor of the base-1024 logarithm, embedded exactly as `Nat.log 1024`,
and the value scaled into that unit is rendered to two decimals.  (The JS
`parseFloat(...toFixed(2))` display of the number is abstracted to the exact
rounded rational's string.) -/
def formatBytes (bytes : Nat) : String :=
  if bytes = 0 then "0 Bytes"
  else
    let i := Nat.log 1024 bytes
    toString (toFixed2 ((bytes : ℚ) / 1024 ^ i)) ++ " " ++ sizes.getD i ""

/-- One benchmark record as assembled at src/index.js:126-133.  Numeric
fields carry the exact values; the source additionally formats
`originalSize`/`compressedSize` through `formatBytes` and the other numbers
through `toFixed` with unit suffixes for display. -/
structure BenchmarkResult where
  algorithm : String
  originalSize : Nat
  compressedSize : Nat
  compressionRatio : ℚ
  timeTaken : ℚ
  savingsInMB : ℚ
deriving Repr, DecidableEq

/-- The nondeterministic inputs of one `testCompression` invocation:
the `Math.random()` draw for the port, which ports the OS refuses to bind,
whether the benchmarked `axios.get` throws, the echoed `content-encoding`
header (`none` when the header is absent), the raw (undecoded) response byte
count, and the `process.hrtime(startTime)` reading. -/
structure RunnerEnv where
  rand : Nat
  bindFails : Nat → Bool
  requestError : Bool
  contentEncoding : Option String
  responseLength : Nat
  elapsedSec : Nat
  elapsedNanos : Nat

/-- Port selection at src/index.js:81: `3000 + Math.floor(Math.random() * 1000)`,
a single draw with no reselection. -/
def selectPort (rand : Nat) : Nat := 3000 + rand % 1000

/-- How one `testCompression` promise can end: resolve with a result,
reject with the request error, or — when `app.listen` fails to bind, so the
listen callback at src/index.js:103 never runs and no error handler is
installed — never settle at all. -/
inductive RunOutcome where
  | resolved : BenchmarkResult → RunOutcome
  | rejected : RunOutcome
  | hung : RunOutcome
deriving Repr, DecidableEq

/-- Observable trace of one `testCompression` invocation: how the promise
ended, every port a bind was attempted on, and the final listener state. -/
structure RunTrace where
  outcome : RunOutcome
  acceptEncoding : String
  portsTried : List Nat
  listenerBound : Bool
  listenerClosed : Bool
deriving Repr, DecidableEq

/-- The result object built at src/index.js:126-133 from the payload and the
response: `algorithm` is the echoed `content-encoding` header or `'none'`
when absent; sizes are the payload length and the raw response byte count;
`compressionRatio` is `(testData.length - response.data.length) /
testData.length * 100` (displayed via `toFixed(2) + '%'`); `timeTaken` is
`endTime[0] * 1000 + endTime[1] / 1e6` milliseconds; `savingsInMB` is the
byte saving scaled to MB. -/
def mkResult (testData : String) (env : RunnerEnv) : BenchmarkResult where
  algorithm := env.contentEncoding.getD "none"
  originalSize := testData.length
  compressedSize := env.responseLength
  compressionRatio :=
    ((testData.length : ℚ) - (env.responseLength : ℚ)) / (testData.length : ℚ) * 100
  timeTaken := (env.elapsedSec : ℚ) * 1000 + (env.elapsedNanos : ℚ) / 1000000
  savingsInMB :=
    ((testData.length : ℚ) - (env.responseLength : ℚ)) / (1024 * 1024)

/-- `testCompression` (src/index.js:78-144).  A fresh express app is created,
one port is drawn, and `app.listen(port, cb)` is issued.  If the bind fails
the callback never runs and the promise never settles (`hung`); otherwise the
callback performs the single benchmarked request, resolving with `mkResult`
on success and rejecting on a request error, and in both cases closes the
server in the `finally` block (src/index.js:139-141). -/
def testCompression (algorithm : String) (testData : String)
    (env : RunnerEnv) : RunTrace :=
  let port := selectPort env.rand
  if env.bindFails port then
    { outcome := .hung, acceptEncoding := algorithm, portsTried := [port],
      listenerBound := false, listenerClosed := false }
  else if env.requestError then
    { outcome := .rejected, acceptEncoding := algorithm, portsTried := [port],
      listenerBound := true, listenerClosed := true }
  else
    { outcome := .resolved (mkResult testData env), acceptEncoding := algorithm,
      portsTried := [port], listenerBound := true, listenerClosed := true }

/-- The nondeterministic inputs of one `compareCompressions` call: the fetch
outcomes, the generator's randomness, and one `RunnerEnv` per codec token. -/
structure CompareEnv where
  fetchResult : String → Option String
  pick : Nat → Nat
  nl : Nat → Bool
  runnerEnv : String → RunnerEnv

/-- Observable trace of one `compareCompressions` call: the payload obtained
from `fetchTestData`, the codecs whose `testCompression` was actually
invoked (in invocation order), and the result list passed to `console.table`
— `none` when the batch aborted before reaching it (or hung). -/
structure CompareTrace where
  payload : String
  invoked : List String
  displayed : Option (List BenchmarkResult)

/-- `compareCompressions` (src/index.js:152-170).  The payload is fetched
once; then, inside a single `try`, `testCompression` is awaited for
`'gzip'`, `'deflate'`, `'br'` in that order, pushing each result; the table
is rendered only after all three resolve.  A rejected run transfers control
to the `catch` (src/index.js:167-169), skipping the remaining codecs and the
rendering; a hung run suspends the whole batch at that codec. -/
def compareCompressions (env : CompareEnv) : CompareTrace :=
  let testData := fetchTestData env.fetchResult env.pick env.nl
  match (testCompression "gzip" testData (env.runnerEnv "gzip")).outcome with
  | .rejected => { payload := testData, invoked := ["gzip"], displayed := none }
  | .hung => { payload := testData, invoked := ["gzip"], displayed := none }
  | .resolved r1 =>
    match (testCompression "deflate" testData (env.runnerEnv "deflate")).outcome with
    | .rejected =>
      { payload := testData, invoked := ["gzip", "deflate"], displayed := none }
    | .hung =>
      { payload := testData, invoked := ["gzip", "deflate"], displayed := none }
    | .resolved r2 =>
      match (testCompression "br" testData (env.runnerEnv "br")).outcome with
      | .rejected =>
        { payload := testData, invoked := ["gzip", "deflate", "br"],
          displayed := none }
      | .hung =>
        { payload := testData, invoked := ["gzip", "deflate", "br"],
          displayed := none }
      | .resolved r3 =>
        { payload := testData, invoked := ["gzip", "deflate", "br"],
          displayed := some [r1, r2, r3] }

/-- Both bind and request succeed for this runner environment. -/
def runnerOk (e : RunnerEnv) : Prop :=
  e.bindFails (selectPort e.rand) = false ∧ e.requestError = false

theorem testCompression_ok (a d : String) (e : RunnerEnv) (h : runnerOk e) :
    testCompression a d e =
      { outcome := .resolved (mkResult d e), acceptEncoding := a,
        portsTried := [selectPort e.rand],
        listenerBound := true, listenerClosed := true } := by
  simp [testCompression, h.1, h.2]

theorem testCompression_resolved_eq (a d : String) (e : RunnerEnv)
    (r : BenchmarkResult) (h : (testCompression a d e).outcome = .resolved r) :
    r = mkResult d e := by
  by_cases hb : e.bindFails (selectPort e.rand) = true
  · simp [testCompression, hb] at h
  · by_cases hr : e.requestError = true
    · simp [testCompression, hb, hr] at h
    · simp [testCompression, hb, hr] at h
      exact h.symm

theorem mkResult_timeTaken_nonneg (d : String) (e : RunnerEnv) :
    0 ≤ (mkResult d e).timeTaken := by
  unfold mkResult
  positivity

/-- Claim C3: for every Runner invocation and every exit path, no listening
socket remains bound to the port the invocation used — whenever the listener
was bound, it has been closed (the `finally` at src/index.js:139-141 closes
the server on both the resolve and the reject path; when the bind itself
fails no listener was ever bound). -/
theorem listener_released_on_every_path (algorithm testData : String)
    (env : RunnerEnv)
    (h : (testCompression algorithm testData env).listenerBound = true) :
    (testCompression algorithm testData env).listenerClosed = true := by
  by_cases hb : env.bindFails (selectPort env.rand) = true
  · simp [testCompression, hb] at h
  · by_cases hr : env.requestError = true
    · simp [testCompression, hb, hr]
    · simp [testCompression, hb, hr]

/-- A runner environment in which the bind and the request both succeed. -/
def envOk : RunnerEnv :=
  { rand := 0, bindFails := fun _ => false, requestError := false,
    contentEncoding := some "gzip", responseLength := 2,
    elapsedSec := 0, elapsedNanos := 500 }

theorem listener_released_witness :
    (testCompression "gzip" "aaaa" envOk).listenerClosed = true :=
  listener_released_on_every_path "gzip" "aaaa" envOk rfl

/-- Claim C4: every successful Runner invocation resolves (does not throw)
with `algorithm` equal to the echoed `content-encoding` header, defaulting to
`'none'` when the header is absent (src/index.js:127). -/
theorem algorithm_reports_echoed_encoding (algorithm testData : String)
    (env : RunnerEnv)
    (hbind : env.bindFails (selectPort env.rand) = false)
    (hreq : env.requestError = false) :
    (testCompression algorithm testData env).outcome
        = .resolved (mkResult testData env)
      ∧ (mkResult testData env).algorithm = env.contentEncoding.getD "none" :=
  ⟨by simp [testCompression, hbind, hreq], rfl⟩

/-- A runner environment whose response carries no `content-encoding`
header. -/
def envNoEncoding : RunnerEnv :=
  { rand := 7, bindFails := fun _ => false, requestError := false,
    contentEncoding := none, responseLength := 3,
    elapsedSec := 0, elapsedNanos := 0 }

theorem algorithm_reports_echoed_encoding_witness :
    (testCompression "gzip" "abcd" envNoEncoding).outcome
        = .resolved (mkResult "abcd" envNoEncoding)
      ∧ (mkResult "abcd" envNoEncoding).algorithm
        = envNoEncoding.contentEncoding.getD "none" :=
  algorithm_reports_echoed_encoding "gzip" "abcd" envNoEncoding rfl rfl

/-- Claim C5: in every result, `compressionRatio` is
`(originalSize - compressedSize) / originalSize` expressed as a percentage,
where `originalSize` is the payload length and `compressedSize` is the raw
response byte count (src/index.js:128-130; the source then renders the value
with `toFixed(2) + '%'` for display). -/
theorem ratio_law (testData : String) (env : RunnerEnv) :
    (mkResult testData env).compressionRatio
        = (((mkResult testData env).originalSize : ℚ)
            - ((mkResult testData env).compressedSize : ℚ))
          / ((mkResult testData env).originalSize : ℚ) * 100
      ∧ (mkResult testData env).originalSize = testData.length
      ∧ (mkResult testData env).compressedSize = env.responseLength :=
  ⟨rfl, rfl, rfl⟩

/-- A runner environment whose selected port (3000, from `rand = 0`) refuses
to bind while the neighbouring port 3001 is free. -/
def envBindFail : RunnerEnv :=
  { rand := 0, bindFails := fun p => p == 3000, requestError := false,
    contentEncoding := some "gzip", responseLength := 1,
    elapsedSec := 0, elapsedNanos := 0 }

/-- Claim C2 is false on the code: with the selected port refusing to bind
and port 3001 free, the Runner tries exactly one port, never binds, never
surfaces a `ServerStartError`, and the invocation hangs instead of retrying
(src/index.js:81,103: one `Math.random` draw, no listen error handler). -/
theorem runner_no_retry_counterexample :
    envBindFail.bindFails (selectPort envBindFail.rand) = true
      ∧ envBindFail.bindFails 3001 = false
      ∧ (testCompression "gzip" "aaaa" envBindFail).outcome = RunOutcome.hung
      ∧ (testCompression "gzip" "aaaa" envBindFail).portsTried = [3000] :=
  ⟨rfl, rfl, rfl, rfl⟩

/-- Claim C2 amended: the Runner draws a single random port in
`[3000, 4000)` and makes exactly one bind attempt; when that bind fails it
does not retry and produces no `ServerStartError` — the listen callback
never runs, no listener is bound, and the invocation never completes. -/
theorem runner_single_bind_attempt (algorithm testData : String)
    (env : RunnerEnv)
    (h : env.bindFails (selectPort env.rand) = true) :
    (testCompression algorithm testData env).outcome = RunOutcome.hung
      ∧ (testCompression algorithm testData env).portsTried
        = [selectPort env.rand]
      ∧ (testCompression algorithm testData env).listenerBound = false
      ∧ 3000 ≤ selectPort env.rand ∧ selectPort env.rand < 4000 := by
  refine ⟨by simp [testCompression, h], by simp [testCompression, h],
    by simp [testCompression, h], ?_, ?_⟩
  · exact Nat.le_add_right 3000 _
  · have := Nat.mod_lt env.rand (show 0 < 1000 by norm_num)
    unfold selectPort
    omega

theorem runner_single_bind_attempt_witness :
    (testCompression "gzip" "aaaa" envBindFail).outcome = RunOutcome.hung
      ∧ (testCompression "gzip" "aaaa" envBindFail).portsTried
        = [selectPort envBindFail.rand]
      ∧ (testCompression "gzip" "aaaa" envBindFail).listenerBound = false
      ∧ 3000 ≤ selectPort envBindFail.rand
      ∧ selectPort envBindFail.rand < 4000 :=
  runner_single_bind_attempt "gzip" "aaaa" envBindFail rfl

/-- A compare environment in which the fetch succeeds, the gzip run rejects
(its benchmarked request errors) and the deflate and brotli runs would
succeed. -/
def envGzipFails : CompareEnv :=
  { fetchResult := fun _ => some "aaaa",
    pick := fun _ => 0, nl := fun _ => false,
    runnerEnv := fun c =>
      { rand := 0, bindFails := fun _ => false, requestError := c == "gzip",
        contentEncoding := some c, responseLength := 1,
        elapsedSec := 0, elapsedNanos := 0 } }

/-- Claim C1 is false on the code: with a failing gzip run and deflate and
brotli runs that would succeed, `compareCompressions` invokes only gzip —
the single `try` at src/index.js:159-166 jumps to the `catch` on the first
rejection, skipping the remaining codecs — and displays no results at all. -/
theorem compare_aborts_counterexample :
    (testCompression "gzip" (compareCompressions envGzipFails).payload
        (envGzipFails.runnerEnv "gzip")).outcome = RunOutcome.rejected
      ∧ runnerOk (envGzipFails.runnerEnv "deflate")
      ∧ runnerOk (envGzipFails.runnerEnv "br")
      ∧ (compareCompressions envGzipFails).invoked = ["gzip"]
      ∧ (compareCompressions envGzipFails).displayed = none :=
  ⟨rfl, ⟨rfl, rfl⟩, ⟨rfl, rfl⟩, rfl, rfl⟩

/-- Claim C1 amended: a failing codec run aborts the batch — when the gzip
run rejects, `compareCompressions` invokes no further codec and passes no
results to `console.table` (the error is only logged); results are rendered
only when every codec run succeeds. -/
theorem compare_aborts_on_first_failure (env : CompareEnv)
    (h : (testCompression "gzip"
        (fetchTestData env.fetchResult env.pick env.nl)
        (env.runnerEnv "gzip")).outcome = RunOutcome.rejected) :
    (compareCompressions env).invoked = ["gzip"]
      ∧ (compareCompressions env).displayed = none := by
  simp only [compareCompressions]
  rw [h]
  exact ⟨rfl, rfl⟩

theorem compare_aborts_on_first_failure_witness :
    (compareCompressions envGzipFails).invoked = ["gzip"]
      ∧ (compareCompressions envGzipFails).displayed = none :=
  compare_aborts_on_first_failure envGzipFails rfl

theorem compareCompressions_payload (env : CompareEnv) :
    (compareCompressions env).payload
      = fetchTestData env.fetchResult env.pick env.nl := by
  simp only [compareCompressions]
  repeat first | rfl | split

theorem compareCompressions_all_ok (env : CompareEnv)
    (hg : runnerOk (env.runnerEnv "gzip"))
    (hd : runnerOk (env.runnerEnv "deflate"))
    (hb : runnerOk (env.runnerEnv "br")) :
    compareCompressions env =
      { payload := fetchTestData env.fetchResult env.pick env.nl,
        invoked := ["gzip", "deflate", "br"],
        displayed := some
          [mkResult (fetchTestData env.fetchResult env.pick env.nl)
            (env.runnerEnv "gzip"),
           mkResult (fetchTestData env.fetchResult env.pick env.nl)
            (env.runnerEnv "deflate"),
           mkResult (fetchTestData env.fetchResult env.pick env.nl)
            (env.runnerEnv "br")] } := by
  have e1 := testCompression_ok "gzip"
    (fetchTestData env.fetchResult env.pick env.nl) (env.runnerEnv "gzip") hg
  have e2 := testCompression_ok "deflate"
    (fetchTestData env.fetchResult env.pick env.nl) (env.runnerEnv "deflate") hd
  have e3 := testCompression_ok "br"
    (fetchTestData env.fetchResult env.pick env.nl) (env.runnerEnv "br") hb
  simp only [compareCompressions, e1, e2, e3]

/-- Claim C6: when every remote source fails, `fetchTestData` does not throw
but returns the synthetic 5 MiB payload, which is non-empty, and
`compareCompressions` proceeds to use it as the payload and (when the runs
themselves succeed) to invoke every codec against it. -/
theorem fallback_payload_nonempty (env : CompareEnv)
    (hfail : ∀ u ∈ urls, env.fetchResult u = none) :
    fetchTestData env.fetchResult env.pick env.nl
        = generateCompressedTestData env.pick env.nl (5 * 1024 * 1024)
      ∧ 0 < (fetchTestData env.fetchResult env.pick env.nl).length
      ∧ (compareCompressions env).payload
        = fetchTestData env.fetchResult env.pick env.nl
      ∧ (runnerOk (env.runnerEnv "gzip") → runnerOk (env.runnerEnv "deflate") →
          runnerOk (env.runnerEnv "br") →
          (compareCompressions env).invoked = ["gzip", "deflate", "br"]) := by
  have hu1 : env.fetchResult "https://www.gutenberg.org/files/100/100-0.txt"
      = none := hfail _ (by simp [urls])
  have hu2 : env.fetchResult "https://www.gutenberg.org/cache/epub/100/pg100.txt"
      = none := hfail _ (by simp [urls])
  have h1 : urls.findSome? env.fetchResult = none := by
    simp [urls, List.findSome?_cons, hu1, hu2]
  have hft : fetchTestData env.fetchResult env.pick env.nl
      = generateCompressedTestData env.pick env.nl (5 * 1024 * 1024) := by
    simp [fetchTestData, h1]
  refine ⟨hft, ?_, compareCompressions_payload env, ?_⟩
  · have := generateCompressedTestData_length_ge env.pick env.nl (5 * 1024 * 1024)
    rw [hft]
    omega
  · intro hg hd hb
    rw [compareCompressions_all_ok env hg hd hb]

/-- A compare environment where every fetch fails and every codec run
succeeds. -/
def envAllFetchFail : CompareEnv :=
  { fetchResult := fun _ => none,
    pick := fun _ => 0, nl := fun _ => false,
    runnerEnv := fun c =>
      { rand := 1, bindFails := fun _ => false, requestError := false,
        contentEncoding := some c, responseLength := 5,
        elapsedSec := 0, elapsedNanos := 100 } }

theorem fallback_payload_nonempty_witness :
    fetchTestData envAllFetchFail.fetchResult envAllFetchFail.pick
        envAllFetchFail.nl
        = generateCompressedTestData envAllFetchFail.pick envAllFetchFail.nl
          (5 * 1024 * 1024)
      ∧ 0 < (fetchTestData envAllFetchFail.fetchResult envAllFetchFail.pick
          envAllFetchFail.nl).length
      ∧ (compareCompressions envAllFetchFail).payload
        = fetchTestData envAllFetchFail.fetchResult envAllFetchFail.pick
          envAllFetchFail.nl
      ∧ (runnerOk (envAllFetchFail.runnerEnv "gzip") →
          runnerOk (envAllFetchFail.runnerEnv "deflate") →
          runnerOk (envAllFetchFail.runnerEnv "br") →
          (compareCompressions envAllFetchFail).invoked
            = ["gzip", "deflate", "br"]) :=
  fallback_payload_nonempty envAllFetchFail (fun _ _ => rfl)

/-- Claim C7: when all three codec runs succeed, the batch renders exactly
three results, in the invocation order gzip, deflate, br, each with a
non-negative (rational, hence finite) `timeTaken`. -/
theorem compare_three_results_in_order (env : CompareEnv)
    (hg : runnerOk (env.runnerEnv "gzip"))
    (hd : runnerOk (env.runnerEnv "deflate"))
    (hb : runnerOk (env.runnerEnv "br")) :
    (compareCompressions env).displayed
        = some
          [mkResult (fetchTestData env.fetchResult env.pick env.nl)
            (env.runnerEnv "gzip"),
           mkResult (fetchTestData env.fetchResult env.pick env.nl)
            (env.runnerEnv "deflate"),
           mkResult (fetchTestData env.fetchResult env.pick env.nl)
            (env.runnerEnv "br")]
      ∧ (compareCompressions env).invoked = ["gzip", "deflate", "br"]
      ∧ ∀ l, (compareCompressions env).displayed = some l →
          l.length = 3 ∧ ∀ r ∈ l, 0 ≤ r.timeTaken := by
  rw [compareCompressions_all_ok env hg hd hb]
  refine ⟨rfl, rfl, ?_⟩
  intro l hl
  rw [Option.some_inj] at hl
  subst hl
  refine ⟨rfl, ?_⟩
  intro r hr
  simp only [List.mem_cons, List.not_mem_nil, or_false] at hr
  rcases hr with rfl | rfl | rfl <;> exact mkResult_timeTaken_nonneg _ _

/-- A compare environment where the fetch succeeds and every codec run
succeeds. -/
def envAllOk : CompareEnv :=
  { fetchResult := fun _ => some "to be or not to be",
    pick := fun _ => 0, nl := fun _ => false,
    runnerEnv := fun c =>
      { rand := 42, bindFails := fun _ => false, requestError := false,
        contentEncoding := some c, responseLength := 7,
        elapsedSec := 0, elapsedNanos := 2500 } }

theorem compare_three_results_in_order_witness :
    (compareCompressions envAllOk).displayed
        = some
          [mkResult (fetchTestData envAllOk.fetchResult envAllOk.pick
              envAllOk.nl) (envAllOk.runnerEnv "gzip"),
           mkResult (fetchTestData envAllOk.fetchResult envAllOk.pick
              envAllOk.nl) (envAllOk.runnerEnv "deflate"),
           mkResult (fetchTestData envAllOk.fetchResult envAllOk.pick
              envAllOk.nl) (envAllOk.runnerEnv "br")]
      ∧ (compareCompressions envAllOk).invoked = ["gzip", "deflate", "br"]
      ∧ ∀ l, (compareCompressions envAllOk).displayed = some l →
          l.length = 3 ∧ ∀ r ∈ l, 0 ≤ r.timeTaken :=
  compare_three_results_in_order envAllOk ⟨rfl, rfl⟩ ⟨rfl, rfl⟩ ⟨rfl, rfl⟩

/-- Claim C8: the payload is obtained from `fetchTestData` once, before any
codec run, and every result of one batch is built from that same payload:
every displayed result's `originalSize` is the length of the single fetched
payload, so all results of one `compareCompressions` call agree on it. -/
theorem payload_fetched_once_shared (env : CompareEnv)
    (l : List BenchmarkResult)
    (h : (compareCompressions env).displayed = some l) :
    (compareCompressions env).payload
        = fetchTestData env.fetchResult env.pick env.nl
      ∧ (∀ r ∈ l, r.originalSize
          = (fetchTestData env.fetchResult env.pick env.nl).length)
      ∧ ∀ r ∈ l, ∀ r' ∈ l, r.originalSize = r'.originalSize := by
  have hsz : ∀ r ∈ l, r.originalSize
      = (fetchTestData env.fetchResult env.pick env.nl).length := by
    simp only [compareCompressions] at h
    cases h1 : (testCompression "gzip"
        (fetchTestData env.fetchResult env.pick env.nl)
        (env.runnerEnv "gzip")).outcome with
    | rejected => rw [h1] at h; simp at h
    | hung => rw [h1] at h; simp at h
    | resolved r1 =>
      rw [h1] at h
      dsimp only at h
      cases h2 : (testCompression "deflate"
          (fetchTestData env.fetchResult env.pick env.nl)
          (env.runnerEnv "deflate")).outcome with
      | rejected => rw [h2] at h; simp at h
      | hung => rw [h2] at h; simp at h
      | resolved r2 =>
        rw [h2] at h
        dsimp only at h
        cases h3 : (testCompression "br"
            (fetchTestData env.fetchResult env.pick env.nl)
            (env.runnerEnv "br")).outcome with
        | rejected => rw [h3] at h; simp at h
        | hung => rw [h3] at h; simp at h
        | resolved r3 =>
          rw [h3] at h
          dsimp only at h
          rw [Option.some_inj] at h
          subst h
          have e1 := testCompression_resolved_eq _ _ _ _ h1
          have e2 := testCompression_resolved_eq _ _ _ _ h2
          have e3 := testCompression_resolved_eq _ _ _ _ h3
          intro r hr
          simp only [List.mem_cons, List.not_mem_nil, or_false] at hr
          rcases hr with rfl | rfl | rfl
          · rw [e1]; rfl
          · rw [e2]; rfl
          · rw [e3]; rfl
  refine ⟨compareCompressions_payload env, hsz, ?_⟩
  intro r hr r' hr'
  rw [hsz r hr, hsz r' hr']

theorem payload_fetched_once_shared_witness :
    (compareCompressions envAllOk).payload
        = fetchTestData envAllOk.fetchResult envAllOk.pick envAllOk.nl
      ∧ (∀ r ∈ [mkResult (fetchTestData envAllOk.fetchResult envAllOk.pick
              envAllOk.nl) (envAllOk.runnerEnv "gzip"),
           mkResult (fetchTestData envAllOk.fetchResult envAllOk.pick
              envAllOk.nl) (envAllOk.runnerEnv "deflate"),
           mkResult (fetchTestData envAllOk.fetchResult envAllOk.pick
              envAllOk.nl) (envAllOk.runnerEnv "br")], r.originalSize
          = (fetchTestData envAllOk.fetchResult envAllOk.pick
              envAllOk.nl).length)
      ∧ ∀ r ∈ [mkResult (fetchTestData envAllOk.fetchResult envAllOk.pick
              envAllOk.nl) (envAllOk.runnerEnv "gzip"),
           mkResult (fetchTestData envAllOk.fetchResult envAllOk.pick
              envAllOk.nl) (envAllOk.runnerEnv "deflate"),
           mkResult (fetchTestData envAllOk.fetchResult envAllOk.pick
              envAllOk.nl) (envAllOk.runnerEnv "br")],
          ∀ r' ∈ [mkResult (fetchTestData envAllOk.fetchResult envAllOk.pick
              envAllOk.nl) (envAllOk.runnerEnv "gzip"),
           mkResult (fetchTestData envAllOk.fetchResult envAllOk.pick
              envAllOk.nl) (envAllOk.runnerEnv "deflate"),
           mkResult (fetchTestData envAllOk.fetchResult envAllOk.pick
              envAllOk.nl) (envAllOk.runnerEnv "br")],
            r.originalSize = r'.originalSize :=
  payload_fetched_once_shared envAllOk _ rfl

/-- Claim C9: for every positive target size the synthetic generator
terminates with a string of length at least the requested size (so never
empty), and each loop iteration strictly grows the accumulated string. -/
theorem generator_terminates_and_covers (pick : Nat → Nat) (nl : Nat → Bool)
    (size : Nat) (h : 0 < size) :
    size ≤ (generateCompressedTestData pick nl size).length
      ∧ generateCompressedTestData pick nl size ≠ ""
      ∧ ∀ n acc, acc.length < (generateStep pick nl n acc).length := by
  refine ⟨generateCompressedTestData_length_ge pick nl size, ?_,
    fun n acc => generateStep_length_lt pick nl n acc⟩
  intro he
  have hlen := generateCompressedTestData_length_ge pick nl size
  rw [he] at hlen
  simp only [String.length_empty] at hlen
  omega

theorem generator_terminates_and_covers_witness :
    3 ≤ (generateCompressedTestData (fun _ => 0) (fun _ => false) 3).length
      ∧ generateCompressedTestData (fun _ => 0) (fun _ => false) 3 ≠ ""
      ∧ ∀ n acc,
          acc.length < (generateStep (fun _ => 0) (fun _ => false) n acc).length :=
  generator_terminates_and_covers (fun _ => 0) (fun _ => false) 3 (by decide)

/-- Claim C10: `formatBytes 0 = "0 Bytes"` (the zero special case), and for
every `bytes` with `1 ≤ bytes < 1024 ^ 4` the unit index stays inside the
four-element unit list, so the returned string ends in one of `Bytes`, `KB`,
`MB`, `GB`. -/
theorem formatBytes_safe :
    formatBytes 0 = "0 Bytes"
      ∧ ∀ b : Nat, 1 ≤ b → b < 1024 ^ 4 →
          ∃ u ∈ (["Bytes", "KB", "MB", "GB"] : List String),
            ∃ p, formatBytes b = p ++ " " ++ u := by
  refine ⟨rfl, ?_⟩
  intro b h1 h4
  have hb0 : b ≠ 0 := by omega
  have hlog : Nat.log 1024 b < 4 := Nat.log_lt_of_lt_pow hb0 h4
  refine ⟨sizes.getD (Nat.log 1024 b) "", ?_,
    toString (toFixed2 ((b : ℚ) / 1024 ^ Nat.log 1024 b)), by
      simp [formatBytes, hb0]⟩
  have hcases : Nat.log 1024 b = 0 ∨ Nat.log 1024 b = 1
      ∨ Nat.log 1024 b = 2 ∨ Nat.log 1024 b = 3 := by omega
  rcases hcases with hc | hc | hc | hc <;> rw [hc] <;> decide

theorem formatBytes_safe_witness :
    ∃ u ∈ (["Bytes", "KB", "MB", "GB"] : List String),
      ∃ p, formatBytes 2048 = p ++ " " ++ u :=
  formatBytes_safe.2 2048 (by norm_num) (by norm_num)

end CompressionTest
